import Mathlib

/-!
Verification of the arena_auto_brawl simulation core against its
natural-language specification.  The definitions below are a shallow
embedding of the TypeScript sources: JavaScript numbers are modelled as
real numbers, `Math.floor` as `Int.floor`, JS `Map`s as association
lists, and each stateful method as an explicit state-passing function.
-/

namespace Arena

/-- Two-dimensional vector, from `Vec2` in `types.ts`. -/
structure Vec2 where
  x : ℝ
  y : ℝ

/-- Element enum from `types.ts`. -/
inductive Element where
  | Fire | Water | Electric | Earth | Air | Ice
deriving DecidableEq, Repr

/-- Element metadata from `types.ts` (presentation fields omitted). -/
structure ElementMeta where
  strongAgainst : List Element
  weakAgainst : List Element

/-- The element table of `ElementRegistry` as a partial map, mirroring
`this.elements.get`, which may miss. -/
def Registry := Element → Option ElementMeta

/-- AOE shape union from `types.ts`. -/
inductive AOEShape where
  | circle | line | cone | rectangle | polygon | arc
deriving DecidableEq, Repr

/-- Character stats from `types.ts`. -/
structure Stats where
  hp : ℝ
  defense : ℝ
  attackPower : ℝ
  speed : ℝ
  element : Element

/-- Attack template from `types.ts` (particle fields kept as strings). -/
structure AttackEffect where
  id : String
  name : String
  baseDamage : ℝ
  cooldown : ℝ
  element : Element
  aoeShape : AOEShape
  aoeSize : ℝ
  aoeWidth : Option ℝ
  aoeAngle : Option ℝ

/-- Planetary house union from `types.ts`. -/
inductive PlanetaryHouse where
  | Jupiter | Saturn | Mars | Neptune | Mercury | Venus | Sol
deriving DecidableEq, Repr

/-- Inventory item, reduced to the fields the verified claims touch. -/
structure Item where
  id : String
  cost : ℤ

/-- The central mutable entity from `types.ts`. -/
structure Character where
  id : String
  stats : Stats
  currentHP : ℝ
  position : Vec2
  velocity : Vec2
  currentTargetId : Option String
  lastAttackTime : ℝ
  isPlayer : Bool
  isDead : Bool
  lastDirectionChange : ℝ
  randomDirection : ℝ
  level : Option ℤ
  planetaryHouse : PlanetaryHouse
  equippedAttack : AttackEffect
  inventory : List Item
  jupiterRunAwayStartTime : Option ℝ

/-- Euclidean distance, from `distance` in `utils.ts`. -/
noncomputable def distance (a b : Vec2) : ℝ :=
  Real.sqrt ((a.x - b.x) * (a.x - b.x) + (a.y - b.y) * (a.y - b.y))

/-- Vector normalisation, from `normalize` in `utils.ts`: the zero vector
maps to the zero vector instead of dividing by zero. -/
noncomputable def normalize (vec : Vec2) : Vec2 :=
  let len := Real.sqrt (vec.x * vec.x + vec.y * vec.y)
  if len = 0 then ⟨0, 0⟩ else ⟨vec.x / len, vec.y / len⟩

/-- Elemental damage modifier, from
`ElementRegistry.calculateElementalModifier`: a 1.25 STAB factor when the
attacker element equals the attack element, then 1.25 when the defender is
weak against the attack element, else 0.75 when it resists it. -/
def calculateElementalModifier (reg : Registry)
    (attackElement attackerElement defenderElement : Element) : ℝ :=
  let modifier : ℝ := if attackerElement = attackElement then 1 * 1.25 else 1
  match reg defenderElement with
  | some defenderMeta =>
      if attackElement ∈ defenderMeta.weakAgainst then modifier * 1.25
      else if attackElement ∈ defenderMeta.strongAgainst then modifier * 0.75
      else modifier
  | none => modifier

/-- Damage formula, from `calculateDamage` in `utils.ts`. -/
noncomputable def calculateDamage (reg : Registry) (attacker defender : Character) : ℤ :=
  let baseDamage := attacker.equippedAttack.baseDamage
  let attackPowerMultiplier := 1 + attacker.stats.attackPower / 100
  let elementalModifier := calculateElementalModifier reg
    attacker.equippedAttack.element attacker.stats.element defender.stats.element
  let rawDamage := ⌊baseDamage * attackPowerMultiplier * elementalModifier *
    ((Real.log defender.stats.defense / Real.log attacker.stats.attackPower) * 0.9)⌋
  max 1 rawDamage

/-- Circle AOE hit test, from `isInCircleAOE` in `utils.ts`. -/
noncomputable def isInCircleAOE (targetPos attackerPos : Vec2) (radius : ℝ) : Prop :=
  distance targetPos attackerPos ≤ radius

/-- Line AOE hit test, from `isInLineAOE` in `utils.ts`. -/
noncomputable def isInLineAOE (targetPos attackerPos targetDirection : Vec2)
    (length width : ℝ) : Prop :=
  let toTarget : Vec2 := ⟨targetPos.x - attackerPos.x, targetPos.y - attackerPos.y⟩
  let normalizedDirection := normalize targetDirection
  let projectionLength :=
    toTarget.x * normalizedDirection.x + toTarget.y * normalizedDirection.y
  ¬(projectionLength < 0 ∨ projectionLength > length) ∧
    |toTarget.x * (-normalizedDirection.y) + toTarget.y * normalizedDirection.x| ≤ width / 2

/-- The angular part shared verbatim by `isInConeAOE` and `isInArcAOE` in
`utils.ts`: the angle between the facing direction and the (normalised)
vector to the target, computed through a clamped arccos of their dot
product and converted to degrees, must not exceed half the given angle. -/
noncomputable def withinHalfAngle (toTarget direction : Vec2) (angleInDegrees : ℝ) : Prop :=
  let normalizedDirection := normalize direction
  let normalizedToTarget := normalize toTarget
  let dotProduct := normalizedDirection.x * normalizedToTarget.x +
    normalizedDirection.y * normalizedToTarget.y
  let angleToTarget := Real.arccos (max (-1) (min 1 dotProduct))
  angleToTarget * 180 / Real.pi ≤ angleInDegrees / 2

/-- Cone AOE hit test, from `isInConeAOE` in `utils.ts`: range check, then
the angular test. -/
noncomputable def isInConeAOE (targetPos attackerPos direction : Vec2)
    (range angleInDegrees : ℝ) : Prop :=
  let toTarget : Vec2 := ⟨targetPos.x - attackerPos.x, targetPos.y - attackerPos.y⟩
  let targetDistance := Real.sqrt (toTarget.x * toTarget.x + toTarget.y * toTarget.y)
  ¬(targetDistance > range) ∧ withinHalfAngle toTarget direction angleInDegrees

/-- Rectangle AOE hit test, from `isInRectangleAOE` in `utils.ts`, which
delegates to the line test. -/
noncomputable def isInRectangleAOE (targetPos attackerPos direction : Vec2)
    (length width : ℝ) : Prop :=
  isInLineAOE targetPos attackerPos direction length width

/-- Arc AOE hit test, from `isInArcAOE` in `utils.ts`: like the cone but
excluding targets closer than `innerRadius`. -/
noncomputable def isInArcAOE (targetPos attackerPos direction : Vec2)
    (range angleInDegrees innerRadius : ℝ) : Prop :=
  let toTarget : Vec2 := ⟨targetPos.x - attackerPos.x, targetPos.y - attackerPos.y⟩
  let targetDistance := Real.sqrt (toTarget.x * toTarget.x + toTarget.y * toTarget.y)
  ¬(targetDistance > range ∨ targetDistance < innerRadius) ∧
    withinHalfAngle toTarget direction angleInDegrees

/-- JavaScript `x || d` on an optional numeric field: `undefined` and `0`
both fall back to the default. -/
noncomputable def jsOrDefault (x : Option ℝ) (d : ℝ) : ℝ :=
  match x with
  | none => d
  | some v => if v = 0 then d else v

/-- Shape dispatch, from `isInAttackAOE` in `utils.ts` (the `polygon`
shape falls into the default branch and never hits). -/
noncomputable def isInAttackAOE (targetPos attackerPos attackDirection : Vec2)
    (attack : AttackEffect) : Prop :=
  match attack.aoeShape with
  | .circle => isInCircleAOE targetPos attackerPos attack.aoeSize
  | .line => isInLineAOE targetPos attackerPos attackDirection attack.aoeSize
      (jsOrDefault attack.aoeWidth 20)
  | .cone => isInConeAOE targetPos attackerPos attackDirection attack.aoeSize
      (jsOrDefault attack.aoeAngle 45)
  | .rectangle => isInRectangleAOE targetPos attackerPos attackDirection attack.aoeSize
      (jsOrDefault attack.aoeWidth 30)
  | .arc => isInArcAOE targetPos attackerPos attackDirection attack.aoeSize
      (jsOrDefault attack.aoeAngle 60) 20
  | .polygon => False

/-- Association-list model of the `Map<string, Character>` owned by
`CharacterManager`; `lookupChar` mirrors `Map.get`. -/
def CharMap := List (String × Character)

/-- Look a character up by id, as `this.characters.get(id)`. -/
def lookupChar : CharMap → String → Option Character
  | [], _ => none
  | (k, v) :: rest, i => if k = i then some v else lookupChar rest i

/-- Overwrite the entry of an existing id, as `Map.set` on a present key. -/
def updateChar : CharMap → String → Character → CharMap
  | [], _, _ => []
  | (k, v) :: rest, i, c => if k = i then (k, c) :: rest else (k, v) :: updateChar rest i c

/-- Events emitted by `CharacterManager.takeDamage`. -/
inductive GameEvent where
  | characterDied (characterId : String)
  | playerKill (killerId victimId : String) (scoreAwarded : ℤ)
deriving DecidableEq

/-- Mutable state of `CharacterManager`: the character map and the ordered
death tracker. -/
structure CMState where
  characters : CharMap
  deathTracker : List String

/-- Damage application, from `CharacterManager.takeDamage` (the
`CharacterManager.ts` revision with an optional attacker id): a silent
no-op when the id is unknown or the character is already dead; otherwise
HP is reduced, clamped at 0, and on the death transition a death event is
emitted, plus a player-kill event when the attacker resolves to the
player.  Returns the new state and the emitted events in order. -/
noncomputable def takeDamage (s : CMState) (characterId : String) (damage : ℝ)
    (attackerId : Option String) : CMState × List GameEvent :=
  match lookupChar s.characters characterId with
  | none => (s, [])
  | some character =>
    if character.isDead then (s, [])
    else
      let hp := character.currentHP - damage
      if hp ≤ 0 then
        let deadChar := { character with currentHP := 0, isDead := true }
        let killEvents : List GameEvent :=
          match attackerId with
          | none => []
          | some aid =>
            match lookupChar s.characters aid with
            | none => []
            | some attacker =>
              if attacker.isPlayer then [.playerKill aid characterId 3] else []
        ({ s with characters := updateChar s.characters characterId deadChar },
          .characterDied characterId :: killEvents)
      else
        ({ s with characters :=
            updateChar s.characters characterId { character with currentHP := hp } }, [])

/-- Number of living characters, from `getLivingCount`. -/
def getLivingCount (s : CMState) : ℕ :=
  ((s.characters.map Prod.snd).filter (fun c => !c.isDead)).length

/-- Round-end condition, from `CombatSystem.checkForGameEnd`. -/
def checkForGameEnd (s : CMState) : Prop :=
  getLivingCount s ≤ 1

/-- JavaScript `Array.indexOf`: index of the first occurrence, `-1` when
absent. -/
def jsIndexOf (l : List String) (x : String) : ℤ :=
  match l.findIdx? (fun y => y = x) with
  | some i => (i : ℤ)
  | none => -1

/-- Player placement, from `CharacterManager.getPlayerPlace`: a missing
player ranks `TOTAL_COMBATANTS`, a living player ranks 1, a dead player
ranks one past its index in the death tracker. -/
def getPlayerPlace (s : CMState) (totalCombatants : ℤ) : ℤ :=
  match (s.characters.map Prod.snd).find? (fun c => c.isPlayer) with
  | none => totalCombatants
  | some player =>
    if !player.isDead then 1
    else jsIndexOf s.deathTracker player.id + 1

/-- Session state from `GameSession` in `types.ts` (round results kept as
place/score pairs). -/
structure GameSession where
  currentRound : ℤ
  totalRounds : ℤ
  cumulativeScore : ℤ
  gold : ℤ
  roundResults : List (ℤ × ℤ)
  isComplete : Bool

/-- Round-end bookkeeping from the `gameLoop` of `ArenaBrawl.tsx`: the
round score is `Math.abs(place - TOTAL_COMBATANTS - 1)` for the place
reported by `getPlayerPlace`, and both the cumulative score and the gold
grow by that score. -/
def roundEnd (cm : CMState) (session : GameSession) (totalCombatants : ℤ) : GameSession :=
  let place := getPlayerPlace cm totalCombatants
  let score := |place - totalCombatants - 1|
  { session with
      cumulativeScore := session.cumulativeScore + score
      gold := session.gold + score
      roundResults := session.roundResults ++ [(place, score)]
      isComplete := decide (session.currentRound ≥ session.totalRounds) }

/-- Shop pricing configuration from the `ShopSystem` constructor. -/
structure ShopConfig where
  baseRerollCost : ℤ
  rerollCostIncrease : ℤ
  maxRerollCost : ℤ

/-- The concrete configuration hard-coded in the `ShopSystem` constructor. -/
def shopSystemConfig : ShopConfig :=
  { baseRerollCost := 1, rerollCostIncrease := 5, maxRerollCost := 100 }

/-- A shop card, reduced to identity and cost. -/
structure ShopCard where
  id : String
  cost : ℤ

/-- Shop state from `types.ts`: current cards, reroll cost, reroll count. -/
structure ShopState where
  cards : List ShopCard
  rerollCost : ℤ
  rerollCount : ℕ

/-- Shop generation from `ShopSystem.generateShop`: six freshly rolled
cards (the random roll is abstracted by the `gen` oracle), reroll cost at
its base, reroll count zero. -/
def generateShop (gen : ℕ → ShopCard) (cfg : ShopConfig) : ShopState :=
  { cards := (List.range 6).map gen
    rerollCost := cfg.baseRerollCost
    rerollCount := 0 }

/-- Shop reroll from `ShopSystem.rerollShop`: six new cards, reroll cost
raised by the fixed increment and capped, reroll count incremented. -/
def rerollShop (gen : ℕ → ShopCard) (cfg : ShopConfig) (currentShop : ShopState) : ShopState :=
  { cards := (List.range 6).map gen
    rerollCost := min (currentShop.rerollCost + cfg.rerollCostIncrease) cfg.maxRerollCost
    rerollCount := currentShop.rerollCount + 1 }

/-- `n` successive rerolls of a freshly generated shop, with a per-visit
card oracle. -/
def rerollN (gen : ℕ → ℕ → ShopCard) (cfg : ShopConfig) : ℕ → ShopState
  | 0 => generateShop (gen 0) cfg
  | n + 1 => rerollShop (gen (n + 1)) cfg (rerollN gen cfg n)

/-- The random draws consumed by one AI movement update. -/
structure Rand where
  r1 : ℝ
  r2 : ℝ
  r3 : ℝ

/-- Targetless wandering, from `AIController.updateRandomMovement`:
re-roll the direction every 1–3 s, move at half speed, integrate. -/
noncomputable def updateRandomMovement (c : Character) (now dt : ℝ) (ρ : Rand) : Character :=
  let redecide := now - c.lastDirectionChange > 1000 + ρ.r1 * 2000
  let dir := if redecide then ρ.r2 * (2 * Real.pi) else c.randomDirection
  let ldc := if redecide then now else c.lastDirectionChange
  let speed := c.stats.speed * 0.5
  let vel : Vec2 := ⟨Real.cos dir * speed, Real.sin dir * speed⟩
  { c with
      randomDirection := dir
      lastDirectionChange := ldc
      velocity := vel
      position := ⟨c.position.x + vel.x * dt, c.position.y + vel.y * dt⟩ }

/-- Jupiter-house movement, from `AIController.updateJupiterMovement`:
retreat below the stand-off distance at a randomised half-to-full speed,
but force an approach once the retreat has lasted more than 3000 ms, and
clear the retreat timer on every non-retreating tick and when no target
exists. -/
noncomputable def updateJupiterMovement (c : Character) (target : Option Character)
    (now dt : ℝ) (ρ : Rand) : Character :=
  match target with
  | none => { updateRandomMovement c now dt ρ with jupiterRunAwayStartTime := none }
  | some t =>
    let targetDistance := distance c.position t.position
    let optimalDistance := c.equippedAttack.aoeSize * 1.5
    let decision : Bool × Option ℝ :=
      if targetDistance < optimalDistance then
        match c.jupiterRunAwayStartTime with
        | none => (true, some now)
        | some t0 => if now - t0 > 3000 then (false, none) else (true, some t0)
      else (false, none)
    let shouldRunAway := decision.1
    let direction : Vec2 :=
      if shouldRunAway then ⟨c.position.x - t.position.x, c.position.y - t.position.y⟩
      else ⟨t.position.x - c.position.x, t.position.y - c.position.y⟩
    let normalizedDirection := normalize direction
    let speed :=
      if shouldRunAway then c.stats.speed * (0.5 + 0.5 * ρ.r3) else c.stats.speed
    let vel : Vec2 := ⟨normalizedDirection.x * speed, normalizedDirection.y * speed⟩
    { c with
        velocity := vel
        position := ⟨c.position.x + vel.x * dt, c.position.y + vel.y * dt⟩
        jupiterRunAwayStartTime := decision.2 }

/-- Modelled from the spec: the Combat Resolution Engine of §4.3 is not
present in the sources (only its event declarations in `eventTypes.ts`,
its consumers in `useEventHandling.ts`/`ArenaBrawl.tsx`, and the AOE
predicates of `utils.ts` are; the `CombatSystem.ts` file on disk is an
earlier single-target iteration that never emits the declared AOE
events).  Per tick and attacker: skip dead attackers, dead targets, and
attackers whose cooldown (`equippedAttack.cooldown`) has not elapsed;
otherwise stamp `lastAttackTime := now` unconditionally, AOE-test the
primary target along the attacker→target direction, and on a hit damage
the target plus every other living character inside the same footprint.
Returns the updated attacker and the list of (character, damage) pairs
applied. -/
noncomputable def combatUpdateStep (reg : Registry) (attacker target : Character)
    (now : ℝ) (others : List Character) : Character × List (Character × ℤ) :=
  letI : ∀ p : Prop, Decidable p := fun p => Classical.propDecidable p
  if attacker.isDead then (attacker, [])
  else if target.isDead then (attacker, [])
  else if now - attacker.lastAttackTime < attacker.equippedAttack.cooldown then (attacker, [])
  else
    let attackDirection := normalize
      ⟨target.position.x - attacker.position.x, target.position.y - attacker.position.y⟩
    let updatedAttacker := { attacker with lastAttackTime := now }
    if isInAttackAOE target.position attacker.position attackDirection
        attacker.equippedAttack then
      let extraHits := others.filter fun c => decide
        (c.isDead = false ∧ c.id ≠ attacker.id ∧ c.id ≠ target.id ∧
          isInAttackAOE c.position attacker.position attackDirection attacker.equippedAttack)
      (updatedAttacker,
        (target :: extraHits).map fun c => (c, calculateDamage reg attacker c))
    else (updatedAttacker, [])

/-- Fixture: a circle-shaped attack of the given radius. -/
def circleAttack (size : ℝ) : AttackEffect :=
  { id := "atk-circle", name := "Fire Blast", baseDamage := 3, cooldown := 500
    element := .Fire, aoeShape := .circle, aoeSize := size
    aoeWidth := none, aoeAngle := none }

/-- Fixture: a character with fixed stats (hp 10, defense 2, attack power
100, speed 60, Fire element), parameterised by id, position, flags,
attack and cooldown stamp. -/
def mkChar (i : String) (px py : ℝ) (isPlayer isDead : Bool)
    (attack : AttackEffect) (lastAttackTime : ℝ) : Character :=
  { id := i, stats := ⟨10, 2, 100, 60, .Fire⟩, currentHP := 10
    position := ⟨px, py⟩, velocity := ⟨0, 0⟩, currentTargetId := none
    lastAttackTime := lastAttackTime, isPlayer := isPlayer, isDead := isDead
    lastDirectionChange := 0, randomDirection := 0, level := none
    planetaryHouse := .Jupiter, equippedAttack := attack, inventory := []
    jupiterRunAwayStartTime := none }

/-- Fixture: element metadata whose weakness list contains Fire. -/
def wMeta : ElementMeta := ⟨[], [.Fire]⟩

/-- Fixture: a registry mapping every element to `wMeta`. -/
def wRegistry : Registry := fun _ => some wMeta

/-- Fixture: attacker for the damage-formula witness. -/
def wAttacker : Character := mkChar "w-att" 0 0 false false (circleAttack 50) 0

/-- Fixture: defender for the damage-formula witness. -/
def wDefender : Character := mkChar "w-def" 30 40 false false (circleAttack 50) 0

/-- Fixture: combat attacker whose last attack was at time 1000. -/
def cAttacker : Character := mkChar "c-att" 0 0 false false (circleAttack 50) 1000

/-- Fixture: combat target inside the circle footprint (distance 50). -/
def cTarget : Character := mkChar "c-tgt" 30 40 false false (circleAttack 50) 0

/-- Fixture: a bystander inside the circle footprint (distance 5). -/
def cBystander : Character := mkChar "c-by" 3 4 false false (circleAttack 50) 0

/-- Fixture: combat target outside the circle footprint (distance 100). -/
def cFarTarget : Character := mkChar "c-far" 60 80 false false (circleAttack 50) 0

/-- Fixture: Jupiter character whose retreat timer started at time 0. -/
def jChar : Character :=
  { mkChar "j" 0 0 false false (circleAttack 40) 0 with jupiterRunAwayStartTime := some 0 }

/-- Fixture: the Jupiter character's target at distance 5. -/
def jTarget : Character := mkChar "j-tgt" 3 4 false false (circleAttack 40) 0

/-- Fixture: store for Scenario B — the player died second among three
deaths, one NPC survives. -/
def cmScenarioB : CMState :=
  { characters :=
      [("player", mkChar "player" 0 0 true true (circleAttack 50) 0),
       ("n1", mkChar "n1" 100 0 false true (circleAttack 50) 0),
       ("n2", mkChar "n2" 0 100 false true (circleAttack 50) 0),
       ("n3", mkChar "n3" 100 100 false false (circleAttack 50) 0)]
    deathTracker := ["n1", "player", "n2"] }

/-- Fixture: a fresh session. -/
def sessionB : GameSession :=
  { currentRound := 1, totalRounds := 3, cumulativeScore := 0, gold := 0
    roundResults := [], isComplete := false }

/-- Fixture: a constant shop-card oracle. -/
def constCardGen : ℕ → ℕ → ShopCard := fun _ _ => ⟨"card", 4⟩

/-- Fixture: fixed random draws. -/
def rand0 : Rand := ⟨0.5, 0.5, 0.5⟩

/-- Fixture: store with a single dead character, for the no-op witness. -/
def cmDeadOnly : CMState :=
  { characters := [("d1", mkChar "d1" 0 0 false true (circleAttack 50) 0)]
    deathTracker := ["d1"] }

/-- Looking up a key other than the updated one is unchanged. -/
theorem lookupChar_updateChar_ne (m : CharMap) (i j : String) (c : Character)
    (h : i ≠ j) : lookupChar (updateChar m i c) j = lookupChar m j := by
  induction m with
  | nil => rfl
  | cons kv rest ih =>
    obtain ⟨k, v⟩ := kv
    simp only [updateChar]
    by_cases hk : k = i
    · rw [if_pos hk]
      have hkj : ¬(k = j) := by rw [hk]; exact h
      simp [lookupChar, hkj]
    · rw [if_neg hk]
      by_cases hkj : k = j
      · simp [lookupChar, hkj]
      · simp [lookupChar, hkj, ih]

/-- Looking up the updated key yields the new value when the key exists. -/
theorem lookupChar_updateChar_self (m : CharMap) (i : String) (c v : Character)
    (h : lookupChar m i = some v) : lookupChar (updateChar m i c) i = some c := by
  induction m with
  | nil => simp [lookupChar] at h
  | cons kv rest ih =>
    obtain ⟨k, w⟩ := kv
    by_cases hk : k = i
    · simp [updateChar, lookupChar, hk]
    · simp only [lookupChar, hk, if_false] at h
      simp [updateChar, lookupChar, hk, ih h]

/-- C10: `normalize` is total and maps any zero-length vector — in
particular the zero vector — to the zero vector instead of dividing by
zero, so direction computations on coincident positions are defined. -/
theorem normalize_total (v : Vec2) (h : Real.sqrt (v.x * v.x + v.y * v.y) = 0) :
    normalize v = ⟨0, 0⟩ := by
  simp [normalize, h]

/-- Witness for C10 at the zero vector. -/
theorem normalize_total_witness : normalize ⟨0, 0⟩ = ⟨0, 0⟩ :=
  normalize_total ⟨0, 0⟩ (by norm_num)

/-- C6: when the round-end condition (at most one living character)
fires, the round score is the absolute difference between the
`getPlayerPlace` result and `TOTAL_COMBATANTS + 1`, and both the
cumulative score and the gold of the session grow by exactly that
score. -/
theorem roundEnd_score_spec (cm : CMState) (session : GameSession) (total : ℤ)
    (hend : checkForGameEnd cm) :
    (roundEnd cm session total).cumulativeScore
        = session.cumulativeScore + |getPlayerPlace cm total - (total + 1)| ∧
    (roundEnd cm session total).gold
        = session.gold + |getPlayerPlace cm total - (total + 1)| := by
  constructor <;> simp [roundEnd, sub_sub]

/-- Witness for C6: Scenario B with four combatants and the player dead
second — the place is 2, the score is 3, and both totals grow by 3. -/
theorem roundEnd_score_witness :
    checkForGameEnd cmScenarioB ∧
    getPlayerPlace cmScenarioB 4 = 2 ∧
    (roundEnd cmScenarioB sessionB 4).cumulativeScore = 3 ∧
    (roundEnd cmScenarioB sessionB 4).gold = 3 := by
  have hend : checkForGameEnd cmScenarioB := by
    simp [checkForGameEnd, getLivingCount, cmScenarioB, mkChar]
  have hplace : getPlayerPlace cmScenarioB 4 = 2 := by
    simp [getPlayerPlace, cmScenarioB, mkChar, jsIndexOf, List.findIdx?]
  have h := roundEnd_score_spec cmScenarioB sessionB 4 hend
  refine ⟨hend, hplace, ?_, ?_⟩
  · rw [h.1, hplace]; norm_num [sessionB]
  · rw [h.2, hplace]; norm_num [sessionB]

/-- C8: starting from a freshly generated shop, `n` rerolls without a
purchase yield a reroll cost of
`min (base + n * increment) cap`, a reroll count of exactly `n`, exactly
six cards, and a reroll cost that never decreases with a further
reroll. -/
theorem shopReroll_cost_spec (gen : ℕ → ℕ → ShopCard) (cfg : ShopConfig)
    (hbase : cfg.baseRerollCost ≤ cfg.maxRerollCost)
    (hinc : 0 ≤ cfg.rerollCostIncrease) (n : ℕ) :
    (rerollN gen cfg n).rerollCost
        = min (cfg.baseRerollCost + (n : ℤ) * cfg.rerollCostIncrease) cfg.maxRerollCost ∧
    (rerollN gen cfg n).rerollCount = n ∧
    (rerollN gen cfg n).cards.length = 6 ∧
    (rerollN gen cfg n).rerollCost ≤ (rerollN gen cfg (n + 1)).rerollCost := by
  induction n with
  | zero =>
    refine ⟨?_, rfl, by simp [rerollN, generateShop], ?_⟩
    · simp [rerollN, generateShop, min_eq_left hbase]
    · simp only [rerollN, generateShop, rerollShop]
      exact le_min (by omega) hbase
  | succ k ih =>
    obtain ⟨hcost, hcount, -, -⟩ := ih
    have hx : cfg.baseRerollCost + ((k : ℤ) + 1) * cfg.rerollCostIncrease
        = cfg.baseRerollCost + (k : ℤ) * cfg.rerollCostIncrease
          + cfg.rerollCostIncrease := by ring
    have hstep : (rerollN gen cfg (k + 1)).rerollCost
        = min (cfg.baseRerollCost + ((k : ℤ) + 1) * cfg.rerollCostIncrease)
            cfg.maxRerollCost := by
      show min ((rerollN gen cfg k).rerollCost + cfg.rerollCostIncrease) cfg.maxRerollCost = _
      rw [hcost, hx]
      generalize cfg.baseRerollCost + (k : ℤ) * cfg.rerollCostIncrease = x
      omega
    have hstep2 : (rerollN gen cfg (k + 1 + 1)).rerollCost
        = min ((rerollN gen cfg (k + 1)).rerollCost + cfg.rerollCostIncrease)
            cfg.maxRerollCost := rfl
    refine ⟨by push_cast; rw [hstep], ?_, by simp [rerollN, rerollShop], ?_⟩
    · show (rerollN gen cfg k).rerollCount + 1 = k + 1
      rw [hcount]
    · rw [hstep2, hstep]
      generalize cfg.baseRerollCost + ((k : ℤ) + 1) * cfg.rerollCostIncrease = y
      omega

/-- Witness for C8 at the hard-coded shop configuration (base 1,
increment 5, cap 100) and three rerolls. -/
theorem shopReroll_cost_witness :
    shopSystemConfig.baseRerollCost ≤ shopSystemConfig.maxRerollCost ∧
    (0 : ℤ) ≤ shopSystemConfig.rerollCostIncrease ∧
    (rerollN constCardGen shopSystemConfig 3).rerollCost = 16 ∧
    (rerollN constCardGen shopSystemConfig 3).rerollCount = 3 ∧
    (rerollN constCardGen shopSystemConfig 3).cards.length = 6 := by
  have h := shopReroll_cost_spec constCardGen shopSystemConfig
    (by norm_num [shopSystemConfig]) (by norm_num [shopSystemConfig]) 3
  refine ⟨by norm_num [shopSystemConfig], by norm_num [shopSystemConfig], ?_, h.2.1, h.2.2.1⟩
  rw [h.1]; norm_num [shopSystemConfig]

/-- C7: `takeDamage` on an unknown id or an already dead character leaves
the whole store untouched and emits no event, and across any `takeDamage`
call the `isDead` flag of every character only ever moves from false to
true, never back. -/
theorem takeDamage_noop_monotone (s : CMState) (i : String) (damage : ℝ)
    (attackerId : Option String) :
    (lookupChar s.characters i = none → takeDamage s i damage attackerId = (s, [])) ∧
    (∀ c, lookupChar s.characters i = some c → c.isDead = true →
        takeDamage s i damage attackerId = (s, [])) ∧
    (∀ j c, lookupChar s.characters j = some c → c.isDead = true →
        ∀ c', lookupChar (takeDamage s i damage attackerId).1.characters j = some c' →
          c'.isDead = true) := by
  refine ⟨?_, ?_, ?_⟩
  · intro h
    simp [takeDamage, h]
  · intro c hc hdead
    simp [takeDamage, hc, hdead]
  · intro j c hj hdead c' hc'
    rcases hlook : lookupChar s.characters i with - | ch
    · simp only [takeDamage, hlook] at hc'
      rw [hj] at hc'
      injection hc' with h
      rw [← h]; exact hdead
    · by_cases hd : ch.isDead
      · simp only [takeDamage, hlook, hd, if_true] at hc'
        rw [hj] at hc'
        injection hc' with h
        rw [← h]; exact hdead
      · have hij : i ≠ j := by
          intro hij
          rw [hij, hj] at hlook
          injection hlook with h
          exact hd (h ▸ hdead)
        by_cases hhp : ch.currentHP - damage ≤ 0
        · simp only [takeDamage, hlook, hd, hhp] at hc'
          simp only [Bool.false_eq_true, if_false, if_true] at hc'
          rw [lookupChar_updateChar_ne _ _ _ _ hij, hj] at hc'
          injection hc' with h
          rw [← h]; exact hdead
        · simp only [takeDamage, hlook, hd, hhp] at hc'
          simp only [Bool.false_eq_true, if_false] at hc'
          rw [lookupChar_updateChar_ne _ _ _ _ hij, hj] at hc'
          injection hc' with h
          rw [← h]; exact hdead

/-- Witness for C7: damage to a dead character and to an unknown id are
both exact no-ops. -/
theorem takeDamage_noop_witness :
    takeDamage cmDeadOnly "d1" 5 none = (cmDeadOnly, []) ∧
    takeDamage cmDeadOnly "ghost" 5 none = (cmDeadOnly, []) := by
  constructor
  · exact (takeDamage_noop_monotone cmDeadOnly "d1" 5 none).2.1
      (mkChar "d1" 0 0 false true (circleAttack 50) 0)
      (by simp [cmDeadOnly, lookupChar]) (by simp [mkChar])
  · exact (takeDamage_noop_monotone cmDeadOnly "ghost" 5 none).1
      (by simp [cmDeadOnly, lookupChar])

/-- C1: `calculateDamage` equals
`max 1 (floor (baseDamage * (1 + attackPower / 100) * M * (log defense /
log attackPower) * 0.9))` where the modifier `M` is the product of the
STAB factor and the weak/strong effectiveness factor read off the
defender element's table entry. -/
theorem calculateDamage_formula (reg : Registry) (a d : Character) (meta : ElementMeta)
    (hbd : 0 < a.equippedAttack.baseDamage)
    (hap : 0 < a.stats.attackPower)
    (hdef : 0 ≤ d.stats.defense)
    (hreg : reg d.stats.element = some meta) :
    calculateDamage reg a d =
      max 1 ⌊a.equippedAttack.baseDamage * (1 + a.stats.attackPower / 100) *
        ((if a.stats.element = a.equippedAttack.element then (1.25 : ℝ) else 1) *
         (if a.equippedAttack.element ∈ meta.weakAgainst then (1.25 : ℝ)
          else if a.equippedAttack.element ∈ meta.strongAgainst then (0.75 : ℝ) else 1)) *
        (Real.log d.stats.defense / Real.log a.stats.attackPower) * 0.9⌋ := by
  simp only [calculateDamage, calculateElementalModifier, hreg]
  refine congrArg (max 1) (congrArg Int.floor ?_)
  split_ifs <;> ring

/-- Witness for C1: concrete Fire-vs-Fire characters with a registry
entry marking the defender weak to Fire. -/
theorem calculateDamage_formula_witness :
    (0 : ℝ) < wAttacker.equippedAttack.baseDamage ∧
    (0 : ℝ) < wAttacker.stats.attackPower ∧
    (0 : ℝ) ≤ wDefender.stats.defense ∧
    wRegistry wDefender.stats.element = some wMeta ∧
    calculateDamage wRegistry wAttacker wDefender =
      max 1 ⌊wAttacker.equippedAttack.baseDamage * (1 + wAttacker.stats.attackPower / 100) *
        ((if wAttacker.stats.element = wAttacker.equippedAttack.element then (1.25 : ℝ) else 1) *
         (if wAttacker.equippedAttack.element ∈ wMeta.weakAgainst then (1.25 : ℝ)
          else if wAttacker.equippedAttack.element ∈ wMeta.strongAgainst then (0.75 : ℝ) else 1)) *
        (Real.log wDefender.stats.defense / Real.log wAttacker.stats.attackPower) * 0.9⌋ := by
  have h1 : (0 : ℝ) < wAttacker.equippedAttack.baseDamage := by
    norm_num [wAttacker, mkChar, circleAttack]
  have h2 : (0 : ℝ) < wAttacker.stats.attackPower := by
    norm_num [wAttacker, mkChar]
  have h3 : (0 : ℝ) ≤ wDefender.stats.defense := by
    norm_num [wDefender, mkChar]
  exact ⟨h1, h2, h3, rfl, calculateDamage_formula wRegistry wAttacker wDefender wMeta h1 h2 h3 rfl⟩

/-- Square roots of concrete perfect squares, used by the witnesses. -/
theorem sqrt_of_mul_self (a b : ℝ) (hb : 0 ≤ b) (h : a = b * b) : Real.sqrt a = b := by
  rw [h]; exact Real.sqrt_mul_self hb

/-- C2: a living attacker with a resolved living target performs no
attack on a tick whose time has not yet reached the last attack time plus
the equipped attack's cooldown: the combat step leaves the attacker
untouched and damages nobody. -/
theorem combat_cooldown_gate (reg : Registry) (a t : Character) (now : ℝ)
    (others : List Character)
    (ha : a.isDead = false) (ht : t.isDead = false)
    (hcd : now - a.lastAttackTime < a.equippedAttack.cooldown) :
    combatUpdateStep reg a t now others = (a, []) := by
  simp [combatUpdateStep, ha, ht, hcd]

/-- Witness for C2: an attacker that fired at time 1000 with a 500 ms
cooldown does not attack at time 1400. -/
theorem combat_cooldown_gate_witness :
    cAttacker.isDead = false ∧ cTarget.isDead = false ∧
    (1400 : ℝ) - cAttacker.lastAttackTime < cAttacker.equippedAttack.cooldown ∧
    combatUpdateStep wRegistry cAttacker cTarget 1400 [] = (cAttacker, []) := by
  have h1 : cAttacker.isDead = false := rfl
  have h2 : cTarget.isDead = false := rfl
  have h3 : (1400 : ℝ) - cAttacker.lastAttackTime < cAttacker.equippedAttack.cooldown := by
    norm_num [cAttacker, mkChar, circleAttack]
  exact ⟨h1, h2, h3, combat_cooldown_gate wRegistry cAttacker cTarget 1400 [] h1 h2 h3⟩

/-- C4: once the cooldown gate passes for a living attacker with a
resolved living target, the attacker's `lastAttackTime` is stamped with
the current time unconditionally — also when the primary target is
outside the attack's area and nobody is hit. -/
theorem combat_swing_updates_cooldown (reg : Registry) (a t : Character) (now : ℝ)
    (others : List Character)
    (ha : a.isDead = false) (ht : t.isDead = false)
    (hcd : ¬(now - a.lastAttackTime < a.equippedAttack.cooldown)) :
    (combatUpdateStep reg a t now others).1.lastAttackTime = now ∧
    (¬ isInAttackAOE t.position a.position
        (normalize ⟨t.position.x - a.position.x, t.position.y - a.position.y⟩)
        a.equippedAttack →
      (combatUpdateStep reg a t now others).2 = []) := by
  constructor
  · simp only [combatUpdateStep, ha, ht, Bool.false_eq_true, if_false]
    rw [if_neg hcd]
    split_ifs <;> rfl
  · intro hmiss
    simp only [combatUpdateStep, ha, ht, Bool.false_eq_true, if_false]
    rw [if_neg hcd, if_neg hmiss]

/-- Witness for C4: the cooldown gate passes at time 2000 but the target
sits 100 px away from a 50 px circle — `lastAttackTime` still becomes
2000 and the hit list is empty. -/
theorem combat_swing_updates_cooldown_witness :
    ¬((2000 : ℝ) - cAttacker.lastAttackTime < cAttacker.equippedAttack.cooldown) ∧
    (combatUpdateStep wRegistry cAttacker cFarTarget 2000 []).1.lastAttackTime = 2000 ∧
    (combatUpdateStep wRegistry cAttacker cFarTarget 2000 []).2 = [] := by
  have hcd : ¬((2000 : ℝ) - cAttacker.lastAttackTime < cAttacker.equippedAttack.cooldown) := by
    norm_num [cAttacker, mkChar, circleAttack]
  have hdist : distance cFarTarget.position cAttacker.position = 100 := by
    simp only [distance, cFarTarget, cAttacker, mkChar]
    exact sqrt_of_mul_self _ 100 (by norm_num) (by norm_num)
  have hmiss : ¬ isInAttackAOE cFarTarget.position cAttacker.position
      (normalize ⟨cFarTarget.position.x - cAttacker.position.x,
        cFarTarget.position.y - cAttacker.position.y⟩) cAttacker.equippedAttack := by
    intro hin
    have h50 : distance cFarTarget.position cAttacker.position ≤ 50 := hin
    rw [hdist] at h50
    norm_num at h50
  have h := combat_swing_updates_cooldown wRegistry cAttacker cFarTarget 2000 [] rfl rfl hcd
  exact ⟨hcd, h.1, h.2 hmiss⟩

/-- C3: when the cooldown gate passes and the primary target is inside
the attack's area, the combat step damages the target and re-scans every
other living character against the same footprint (attacker position,
attacker-to-target facing), damaging every character inside it, including
characters that are not the attacker's resolved target. -/
theorem combat_aoe_rescan (reg : Registry) (a t : Character) (now : ℝ)
    (others : List Character)
    (ha : a.isDead = false) (ht : t.isDead = false)
    (hcd : ¬(now - a.lastAttackTime < a.equippedAttack.cooldown))
    (hhit : isInAttackAOE t.position a.position
      (normalize ⟨t.position.x - a.position.x, t.position.y - a.position.y⟩)
      a.equippedAttack) :
    (t, calculateDamage reg a t) ∈ (combatUpdateStep reg a t now others).2 ∧
    ∀ c ∈ others, c.isDead = false → c.id ≠ a.id → c.id ≠ t.id →
      isInAttackAOE c.position a.position
        (normalize ⟨t.position.x - a.position.x, t.position.y - a.position.y⟩)
        a.equippedAttack →
      (c, calculateDamage reg a c) ∈ (combatUpdateStep reg a t now others).2 := by
  constructor
  · simp only [combatUpdateStep, ha, ht, Bool.false_eq_true, if_false]
    rw [if_neg hcd, if_pos hhit]
    exact List.mem_map.mpr ⟨t, List.mem_cons_self _ _, rfl⟩
  · intro c hc hcdead hca hct hcin
    simp only [combatUpdateStep, ha, ht, Bool.false_eq_true, if_false]
    rw [if_neg hcd, if_pos hhit]
    refine List.mem_map.mpr ⟨c, List.mem_cons_of_mem _ ?_, rfl⟩
    refine List.mem_filter.mpr ⟨hc, ?_⟩
    exact @decide_eq_true _ (Classical.propDecidable _) ⟨hcdead, hca, hct, hcin⟩

/-- Witness for C3: a 50 px circle attack fired at a target 50 px away
also damages a bystander 5 px away that is not the resolved target. -/
theorem combat_aoe_rescan_witness :
    (cTarget, calculateDamage wRegistry cAttacker cTarget)
        ∈ (combatUpdateStep wRegistry cAttacker cTarget 2000 [cBystander]).2 ∧
    (cBystander, calculateDamage wRegistry cAttacker cBystander)
        ∈ (combatUpdateStep wRegistry cAttacker cTarget 2000 [cBystander]).2 := by
  have hcd : ¬((2000 : ℝ) - cAttacker.lastAttackTime < cAttacker.equippedAttack.cooldown) := by
    norm_num [cAttacker, mkChar, circleAttack]
  have hdist : distance cTarget.position cAttacker.position = 50 := by
    simp only [distance, cTarget, cAttacker, mkChar]
    exact sqrt_of_mul_self _ 50 (by norm_num) (by norm_num)
  have hhit : isInAttackAOE cTarget.position cAttacker.position
      (normalize ⟨cTarget.position.x - cAttacker.position.x,
        cTarget.position.y - cAttacker.position.y⟩) cAttacker.equippedAttack := by
    show distance cTarget.position cAttacker.position ≤ 50
    rw [hdist]
  have hdistB : distance cBystander.position cAttacker.position = 5 := by
    simp only [distance, cBystander, cAttacker, mkChar]
    exact sqrt_of_mul_self _ 5 (by norm_num) (by norm_num)
  have hinB : isInAttackAOE cBystander.position cAttacker.position
      (normalize ⟨cTarget.position.x - cAttacker.position.x,
        cTarget.position.y - cAttacker.position.y⟩) cAttacker.equippedAttack := by
    show distance cBystander.position cAttacker.position ≤ 50
    rw [hdistB]; norm_num
  have h := combat_aoe_rescan wRegistry cAttacker cTarget 2000 [cBystander]
    rfl rfl hcd hhit
  exact ⟨h.1, h.2 cBystander (List.mem_cons_self _ _) rfl (by decide) (by decide) hinB⟩

/-- C9: a Jupiter-house character's retreat is capped: on a tick whose
time exceeds the recorded `jupiterRunAwayStartTime` by more than 3000 ms
while still inside the stand-off distance, the velocity is forced toward
the target at full speed and the timer is cleared; the timer is also
cleared on every tick on which the character is not retreating or has no
target. -/
theorem jupiter_retreat_cap (c t : Character) (now dt : ℝ) (ρ : Rand) :
    (∀ t0, c.jupiterRunAwayStartTime = some t0 → now - t0 > 3000 →
        distance c.position t.position < c.equippedAttack.aoeSize * 1.5 →
        (updateJupiterMovement c (some t) now dt ρ).velocity =
            ⟨(normalize ⟨t.position.x - c.position.x, t.position.y - c.position.y⟩).x
                * c.stats.speed,
              (normalize ⟨t.position.x - c.position.x, t.position.y - c.position.y⟩).y
                * c.stats.speed⟩ ∧
          (updateJupiterMovement c (some t) now dt ρ).jupiterRunAwayStartTime = none) ∧
    (¬ distance c.position t.position < c.equippedAttack.aoeSize * 1.5 →
        (updateJupiterMovement c (some t) now dt ρ).jupiterRunAwayStartTime = none) ∧
    (updateJupiterMovement c none now dt ρ).jupiterRunAwayStartTime = none := by
  refine ⟨?_, ?_, ?_⟩
  · intro t0 ht0 h3000 hdist
    simp only [updateJupiterMovement, ht0]
    rw [if_pos hdist, if_pos h3000]
    simp
  · intro hfar
    simp only [updateJupiterMovement]
    rw [if_neg hfar]
  · simp [updateJupiterMovement, updateRandomMovement]

/-- Witness for C9: a Jupiter character at distance 5 with stand-off 60
and a retreat timer started 4000 ms ago has its timer cleared (forced
approach), as does a targetless tick. -/
theorem jupiter_retreat_cap_witness :
    jChar.jupiterRunAwayStartTime = some 0 ∧
    (4000 : ℝ) - 0 > 3000 ∧
    distance jChar.position jTarget.position < jChar.equippedAttack.aoeSize * 1.5 ∧
    (updateJupiterMovement jChar (some jTarget) 4000 0.016 rand0).jupiterRunAwayStartTime
        = none ∧
    (updateJupiterMovement jChar none 4000 0.016 rand0).jupiterRunAwayStartTime = none := by
  have h1 : jChar.jupiterRunAwayStartTime = some 0 := rfl
  have h2 : (4000 : ℝ) - 0 > 3000 := by norm_num
  have hdistj : distance jChar.position jTarget.position = 5 := by
    simp only [distance, jChar, jTarget, mkChar]
    exact sqrt_of_mul_self _ 5 (by norm_num) (by norm_num)
  have h3 : distance jChar.position jTarget.position < jChar.equippedAttack.aoeSize * 1.5 := by
    rw [hdistj]
    norm_num [jChar, mkChar, circleAttack]
  have h := jupiter_retreat_cap jChar jTarget 4000 0.016 rand0
  exact ⟨h1, h2, h3, (h.1 0 h1 h2 h3).2, h.2.2⟩

/-- The angular test of the cone and arc shapes evaluated at a coincident
target: the zero vector normalises to zero, the dot product is 0, the
clamped arccos yields 90 degrees, so the test holds exactly when the
shape's angle is at least 180 degrees. -/
theorem withinHalfAngle_zero (dir : Vec2) (angle : ℝ) :
    withinHalfAngle ⟨0, 0⟩ dir angle ↔ 180 ≤ angle := by
  have hnt : normalize ⟨0, 0⟩ = (⟨0, 0⟩ : Vec2) := by simp [normalize]
  simp only [withinHalfAngle, hnt]
  have hdot : (normalize dir).x * (Vec2.mk 0 0).x + (normalize dir).y * (Vec2.mk 0 0).y
      = 0 := by ring
  rw [hdot]
  have hclamp : max (-1 : ℝ) (min 1 0) = 0 := by norm_num
  rw [hclamp, Real.arccos_zero]
  have hpi : Real.pi / 2 * 180 / Real.pi = 90 := by
    field_simp
    ring
  rw [hpi]
  constructor <;> intro h <;> linarith

/-- Counterexample to C5 as stated: a target at the attacker's exact
position is not inside a cone of range 10 and angle 45 (≥ 0), because the
angle to a coincident target evaluates to 90 degrees. -/
theorem coneAOE_origin_counterexample :
    (0 : ℝ) ≤ 45 ∧ ¬ isInConeAOE ⟨0, 0⟩ ⟨0, 0⟩ ⟨1, 0⟩ 10 45 := by
  refine ⟨by norm_num, ?_⟩
  intro h
  simp only [isInConeAOE, sub_self] at h
  obtain ⟨-, h2⟩ := h
  rw [withinHalfAngle_zero] at h2
  norm_num at h2

/-- C5 (amended): a target at the attacker's exact position is inside a
circle AOE of any positive radius; it is inside a cone AOE of
nonnegative range exactly when the cone angle is at least 180 degrees
(the angle to a coincident target evaluates to 90 degrees, not 0); and it
is inside an arc AOE only if the arc's `innerRadius` is 0. -/
theorem aoe_origin_amended :
    (∀ (p : Vec2) (radius : ℝ), 0 < radius → isInCircleAOE p p radius) ∧
    (∀ (p dir : Vec2) (range angle : ℝ), 0 ≤ range →
        (isInConeAOE p p dir range angle ↔ 180 ≤ angle)) ∧
    (∀ (p dir : Vec2) (range angle innerRadius : ℝ), 0 ≤ innerRadius →
        isInArcAOE p p dir range angle innerRadius → innerRadius = 0) := by
  refine ⟨?_, ?_, ?_⟩
  · intro p radius hr
    show distance p p ≤ radius
    simp only [distance, sub_self, mul_zero, add_zero, Real.sqrt_zero]
    exact le_of_lt hr
  · intro p dir range angle hrange
    simp only [isInConeAOE, sub_self, mul_zero, add_zero, Real.sqrt_zero,
      withinHalfAngle_zero]
    constructor
    · exact fun h => h.2
    · exact fun h => ⟨not_lt.mpr hrange, h⟩
  · intro p dir range angle innerRadius hinner hin
    simp only [isInArcAOE, sub_self, mul_zero, add_zero, Real.sqrt_zero] at hin
    obtain ⟨h1, -⟩ := hin
    push_neg at h1
    exact le_antisymm h1.2 hinner

/-- Witness for C5 (amended): the circle part at radius 5 and the cone
part at angle 200. -/
theorem aoe_origin_amended_witness :
    (0 : ℝ) < 5 ∧ isInCircleAOE ⟨1, 2⟩ ⟨1, 2⟩ 5 ∧
    (0 : ℝ) ≤ 10 ∧ isInConeAOE ⟨3, 4⟩ ⟨3, 4⟩ ⟨1, 0⟩ 10 200 := by
  refine ⟨by norm_num, aoe_origin_amended.1 ⟨1, 2⟩ 5 (by norm_num), by norm_num, ?_⟩
  exact (aoe_origin_amended.2.1 ⟨3, 4⟩ ⟨1, 0⟩ 10 200 (by norm_num)).mpr (by norm_num)

end Arena
